import Mathlib

/-!
Verification development for the email-service delivery pipeline.

Shallow embedding of the resilient delivery orchestration layer:
the circuit breaker (src/email/services/circuit-breaker.service.ts), the
retry policy (src/email/services/retry.service.ts), the idempotency guard
and orchestrator (src/email/email.service.ts), the transport wrapper
(src/email/services/email-sender.service.ts), the Redis adapter
(src/shared/redis.service.ts) and the queue controller
(src/email/email.controller.ts).

Collaborator calls (Redis reads, user/template lookups, render, transport
send) are modelled as oracle outcomes supplied in an environment record:
`Except String α` stands for a promise that either resolves with `α` or
rejects with an error message.  Wall-clock timestamps are naturals
(milliseconds); `Date` fields that only decorate results are omitted.
Side effects are recorded in an explicit effect trace.
-/

/-! ## Circuit breaker (src/email/services/circuit-breaker.service.ts) -/

inductive CircuitState where
  | CLOSED
  | OPEN
  | HALF_OPEN
deriving DecidableEq, Repr

structure CircuitBreaker where
  state : CircuitState
  failure_count : Nat
  success_count : Nat
  last_failure_time : Option Nat
  next_attempt_time : Nat
deriving DecidableEq, Repr

def FAILURE_THRESHOLD : Nat := 5

def SUCCESS_THRESHOLD : Nat := 2

def TIMEOUT : Nat := 60000

/-- The circuit created by `getOrCreateCircuit` on first use of a name. -/
def initialCircuit : CircuitBreaker :=
  { state := CircuitState.CLOSED
    failure_count := 0
    success_count := 0
    last_failure_time := none
    next_attempt_time := 0 }

/-- `onSuccess`: reset `failure_count`; in HALF_OPEN count successes and
close the circuit at `SUCCESS_THRESHOLD`. -/
def onSuccess (c : CircuitBreaker) : CircuitBreaker :=
  let c := { c with failure_count := 0 }
  if c.state = CircuitState.HALF_OPEN then
    let c := { c with success_count := c.success_count + 1 }
    if SUCCESS_THRESHOLD ≤ c.success_count then
      { c with state := CircuitState.CLOSED, success_count := 0 }
    else c
  else c

/-- `onFailure`: count the failure; any HALF_OPEN failure reopens the
circuit, and reaching `FAILURE_THRESHOLD` opens it. -/
def onFailure (c : CircuitBreaker) (now : Nat) : CircuitBreaker :=
  let c := { c with
    failure_count := c.failure_count + 1
    last_failure_time := some now }
  if c.state = CircuitState.HALF_OPEN then
    { c with
      state := CircuitState.OPEN
      next_attempt_time := now + TIMEOUT
      success_count := 0 }
  else if FAILURE_THRESHOLD ≤ c.failure_count then
    { c with
      state := CircuitState.OPEN
      next_attempt_time := now + TIMEOUT }
  else c

/-- Outcome of one `execute` call: the fast-fail rejection (the wrapped
operation is not invoked) or completion with the operation's own result or
error propagated unchanged. -/
inductive ExecOutcome (α : Type) where
  | rejected (msg : String)
  | completed (result : Except String α)
deriving Repr

/-- The `try/catch` around `await operation()` in `execute`: run the
operation, feed the outcome into the state machine, propagate the result. -/
def runOperation {α : Type} (c : CircuitBreaker) (now : Nat)
    (op : Except String α) : ExecOutcome α × CircuitBreaker :=
  match op with
  | Except.ok a => (ExecOutcome.completed (Except.ok a), onSuccess c)
  | Except.error e => (ExecOutcome.completed (Except.error e), onFailure c now)

/-- `CircuitBreakerService.execute` on one named circuit: fast-fail while
OPEN before `next_attempt_time`, transition to HALF_OPEN (resetting
`success_count`) once the timeout elapsed, otherwise pass the call through. -/
def execute {α : Type} (c : CircuitBreaker) (now : Nat)
    (op : Except String α) (circuit_name : String) :
    ExecOutcome α × CircuitBreaker :=
  if c.state = CircuitState.OPEN then
    if now < c.next_attempt_time then
      (ExecOutcome.rejected ("Circuit breaker is OPEN for " ++ circuit_name), c)
    else
      runOperation { c with state := CircuitState.HALF_OPEN, success_count := 0 } now op
  else
    runOperation c now op

example :
    (execute initialCircuit 10 (Except.error "boom" : Except String Nat) "x").2.failure_count = 1 := by
  decide

/-! ## Data model (src/email/types/index.ts) -/

inductive NotificationStatus where
  | DELIVERED
  | PENDING
  | FAILED
deriving DecidableEq, Repr

structure UserPreferences where
  email : Bool
  push : Bool
deriving DecidableEq, Repr

structure UserData where
  id : String
  name : String
  email : String
  preferences : UserPreferences
deriving DecidableEq, Repr

structure EmailTemplate where
  id : String
  code : String
  subject : String
  html_body : String
  text_body : Option String
  «variables» : List String
  language : String
  version : Nat
deriving DecidableEq, Repr

/-- `EmailSendResult` without its `timestamp : Date` decoration. -/
structure EmailSendResult where
  success : Bool
  message_id : Option String
  error : Option String
deriving DecidableEq, Repr

structure EmailNotificationPayload where
  user_id : String
  template_code : String
  «variables» : List (String × String)
  request_id : String
  priority : Nat
deriving DecidableEq, Repr

/-- Output of `TemplateService.renderTemplate`. -/
structure RenderedEmail where
  subject : String
  html_body : String
  text_body : Option String
deriving DecidableEq, Repr

/-! ## Redis adapter (src/shared/redis.service.ts) -/

/-- `RedisService.get`: the underlying `client.get` either resolves with
`string | null` or throws; the catch block logs and returns `null`. -/
def redisServiceGet (raw : Except String (Option String)) : Option String :=
  match raw with
  | Except.ok v => v
  | Except.error _ => none

/-- JavaScript double-negation truthiness of a `string | null` value:
`null` and the empty string are falsy. -/
def jsTruthyStr : Option String → Bool
  | none => false
  | some s => if s = "" then false else true

/-! ## Retry policy (src/email/services/retry.service.ts) -/

def INITIAL_DELAY_MS : Nat := 1000

def MAX_DELAY_MS : Nat := 300000

def BACKOFF_MULTIPLIER : Nat := 2

def MAX_ATTEMPTS : Nat := 3

structure RetryMetadata where
  request_id : String
  attempt_count : Nat
  first_attempt_at : Nat
  last_attempt_at : Nat
  next_retry_at : Nat
  errors : List String
deriving DecidableEq, Repr

/-- The `retry:*` keyspace of the KV store; the JSON round-trip through
`JSON.stringify`/`JSON.parse` is modelled as the identity. -/
def RetryStore : Type := String → Option RetryMetadata

/-- Pre-jitter exponential backoff:
`min(INITIAL_DELAY_MS * BACKOFF_MULTIPLIER ^ (attempt_count - 1), MAX_DELAY_MS)`. -/
def calculateBackoffBase (attempt_count : Nat) : Nat :=
  min (INITIAL_DELAY_MS * BACKOFF_MULTIPLIER ^ (attempt_count - 1)) MAX_DELAY_MS

/-- `calculateBackoff`: jitter adds `delay * 0.2 * Math.random()` and the
sum is floored; the random draw is the parameter `rand ∈ [0, 1)`. -/
def calculateBackoff (attempt_count : Nat) (rand : ℚ) : ℤ :=
  let delay : ℚ := (calculateBackoffBase attempt_count : ℚ)
  let jitter : ℚ := delay * (1 / 5) * rand
  ⌊delay + jitter⌋

/-- `RetryService.getRetryCount`: 0 when no record exists. -/
def getRetryCount (store : RetryStore) (request_id : String) : Nat :=
  match store ("retry:" ++ request_id) with
  | none => 0
  | some m => m.attempt_count

/-- `RetryService.shouldRetry`. -/
def retryServiceShouldRetry (store : RetryStore) (request_id : String) : Bool :=
  decide (getRetryCount store request_id < MAX_ATTEMPTS)

/-- `RetryService.recordRetry`: create the record with `attempt_count = 1`
or increment it, append the error, recompute `next_retry_at`. -/
def recordRetry (store : RetryStore) (request_id error : String)
    (now : Nat) (rand : ℚ) : RetryStore :=
  let key := "retry:" ++ request_id
  let retryData : RetryMetadata :=
    match store key with
    | some existing =>
        { existing with
          attempt_count := existing.attempt_count + 1
          last_attempt_at := now
          errors := existing.errors ++ [error] }
    | none =>
        { request_id := request_id
          attempt_count := 1
          first_attempt_at := now
          last_attempt_at := now
          next_retry_at := now
          errors := [error] }
  let delay := (calculateBackoff retryData.attempt_count rand).toNat
  let retryData := { retryData with next_retry_at := now + delay }
  fun k => if k = key then some retryData else store k

example : calculateBackoffBase 1 = 1000 := by decide
example : calculateBackoffBase 6 = 32000 := by decide
example : calculateBackoffBase 10 = 300000 := by decide
example : calculateBackoff 1 0 = 1000 := by norm_num [calculateBackoff, calculateBackoffBase, INITIAL_DELAY_MS, MAX_DELAY_MS, BACKOFF_MULTIPLIER]

/-! ## Transport wrapper (src/email/services/email-sender.service.ts) -/

/-- A nodemailer transport error: its optional `code` and its `message`. -/
structure TransportError where
  code : Option String
  message : String
deriving DecidableEq, Repr

def RETRYABLE_ERROR_CODES : List String :=
  ["ETIMEDOUT", "ECONNRESET", "ENOTFOUND", "ECONNREFUSED", "EHOSTUNREACH"]

/-- JavaScript `String.prototype.includes`. -/
def stringIncludes (s sub : String) : Bool :=
  decide (2 ≤ (s.splitOn sub).length)

/-- `EmailSender.isRetryableError`. -/
def isRetryableError (e : TransportError) : Bool :=
  (match e.code with
   | some c => RETRYABLE_ERROR_CODES.contains c
   | none => false)
  || stringIncludes e.message "timeout"
  || stringIncludes e.message "rate limit"

/-- The async closure `EmailSender.sendEmail` hands to
`circuitBreaker.execute`: the `transporter.sendMail` outcome is the
parameter; a transport throw is caught inside the closure and turned into
a returned `{success:false, error}` result, so the closure itself always
resolves (never rejects). -/
def sendEmailOp (transport : Except TransportError String) :
    Except String EmailSendResult :=
  Except.ok
    (match transport with
     | Except.ok message_id =>
         { success := true, message_id := some message_id, error := none }
     | Except.error e =>
         { success := false
           message_id := none
           error := some (e.message ++ " (Retryable: "
             ++ (if isRetryableError e then "true" else "false") ++ ")") })

/-- `EmailSender.sendEmail`: the closure run through the circuit breaker
under operation name `"email_send"`. -/
def sendEmailThroughBreaker (c : CircuitBreaker) (now : Nat)
    (transport : Except TransportError String) :
    ExecOutcome EmailSendResult × CircuitBreaker :=
  execute c now (sendEmailOp transport) "email_send"

/-! ## Orchestrator (src/email/email.service.ts) -/

def MAX_RETRY_ATTEMPTS : Nat := 3

/-- Observable side effects of one `processEmailNotification` call. -/
inductive Effect where
  | statusEmit (notification_id : String) (status : NotificationStatus)
      (error : Option String)
  | statusCacheSet (notification_id : String)
  | userLookup (user_id : String)
  | templateLookup (template_code : String)
  | render
  | send (recipient : String)
  | processedSet (key : String) (value : String)
  | retryRecord (request_id : String)
deriving DecidableEq, Repr

/-- Oracle outcomes of every collaborator call one
`processEmailNotification` run can make.  `Except.error` is a rejected
promise (a throw). -/
structure Env where
  /-- `redisService.get ("processed:" ++ request_id)`: the raw
  `client.get` outcome seen inside `RedisService.get`. -/
  processedVal : Except String (Option String)
  /-- `userService.getUserById`: resolves `UserData | null` or throws. -/
  userResult : Except String (Option UserData)
  /-- `templateService.getTemplate`: resolves `EmailTemplate | null` or throws. -/
  templateResult : Except String (Option EmailTemplate)
  /-- `templateService.renderTemplate`: returns or throws. -/
  renderResult : Except String RenderedEmail
  /-- `emailSender.sendEmail`: resolves an `EmailSendResult` or rejects
  (a breaker-open rejection is a rejected promise). -/
  sendResult : Except String EmailSendResult
  /-- `redisService.set` inside `markAsProcessed`: resolves or throws. -/
  markSetResult : Except String Unit

/-- `JSON.stringify` of an `EmailSendResult` (the ProcessedRecord body
stored by `markAsProcessed`); always a nonempty object literal. -/
def serializeResult (r : EmailSendResult) : String :=
  "\x7b\x22success\x22:" ++ (if r.success then "true" else "false")
    ++ (match r.message_id with
        | some m => ",\x22message_id\x22:\x22" ++ m ++ "\x22"
        | none => "")
    ++ (match r.error with
        | some e => ",\x22error\x22:\x22" ++ e ++ "\x22"
        | none => "")
    ++ "\x7d"

/-- `EmailService.updateStatus`: emit to the status queue and cache the
update for 1h; its own try/catch swallows every error, so it never
throws. -/
def updateStatusEffects (notification_id : String)
    (status : NotificationStatus) (error : Option String) : List Effect :=
  [Effect.statusEmit notification_id status error,
   Effect.statusCacheSet notification_id]

/-- `EmailService.checkIdempotency`: `!!exists` on the `processed:*` read. -/
def checkIdempotency (env : Env) : Bool :=
  jsTruthyStr (redisServiceGet env.processedVal)

/-- The body of the `try` block of `processEmailNotification` (steps 1-6).
`Except.error` carries the thrown message together with the effects
already performed when the throw happened. -/
def processBody (env : Env) (payload : EmailNotificationPayload) :
    Except (String × List Effect) (EmailSendResult × List Effect) :=
  if checkIdempotency env then
    Except.ok
      ({ success := true, message_id := some "duplicate", error := none }, [])
  else
    let effs := updateStatusEffects payload.request_id NotificationStatus.PENDING none
    let effs := effs ++ [Effect.userLookup payload.user_id]
    match env.userResult with
    | Except.error e => Except.error (e, effs)
    | Except.ok none =>
        Except.error ("User not found: " ++ payload.user_id, effs)
    | Except.ok (some user) =>
      if !user.preferences.email then
        let effs := effs ++ updateStatusEffects payload.request_id
          NotificationStatus.FAILED (some "User has email notifications disabled")
        Except.ok
          ({ success := false, message_id := none,
             error := some "User preferences disabled" }, effs)
      else
        let effs := effs ++ [Effect.templateLookup payload.template_code]
        match env.templateResult with
        | Except.error e => Except.error (e, effs)
        | Except.ok none =>
            Except.error ("Template not found: " ++ payload.template_code, effs)
        | Except.ok (some _) =>
          match env.renderResult with
          | Except.error e => Except.error (e, effs ++ [Effect.render])
          | Except.ok _ =>
            let effs := effs ++ [Effect.render, Effect.send user.email]
            match env.sendResult with
            | Except.error e => Except.error (e, effs)
            | Except.ok result =>
              if result.success then
                let effs := effs ++ updateStatusEffects payload.request_id
                  NotificationStatus.DELIVERED none
                match env.markSetResult with
                | Except.error e => Except.error (e, effs)
                | Except.ok _ =>
                    let effs := effs ++ [Effect.processedSet
                      ("processed:" ++ payload.request_id) (serializeResult result)]
                    Except.ok (result, effs)
              else
                let effs := effs ++ updateStatusEffects payload.request_id
                  NotificationStatus.FAILED result.error
                Except.ok (result, effs)

/-- `EmailService.processEmailNotification`: the `try` body with its
catch-all handler, which emits a FAILED status and returns
`{success:false, error}`; the method as a whole therefore always returns
a result and never rejects. -/
def processEmailNotification (env : Env) (payload : EmailNotificationPayload) :
    EmailSendResult × List Effect :=
  match processBody env payload with
  | Except.ok r => r
  | Except.error (msg, effs) =>
      ({ success := false, message_id := none, error := some msg },
       effs ++ updateStatusEffects payload.request_id
         NotificationStatus.FAILED (some msg))

/-- `EmailService.shouldRetry`. -/
def emailServiceShouldRetry (store : RetryStore)
    (payload : EmailNotificationPayload) : Bool :=
  decide (getRetryCount store payload.request_id < MAX_RETRY_ATTEMPTS)

/-! ## Queue controller (src/email/email.controller.ts) -/

inductive AckAction where
  | ack
  | nackRequeue
  | nackDeadLetter
deriving DecidableEq, Repr

structure HandleResult where
  action : AckAction
  /-- Whether `emailService.shouldRetry` was called on this message. -/
  consultedShouldRetry : Bool
  result : EmailSendResult
  effects : List Effect
deriving DecidableEq, Repr

/-- `EmailController.handleEmailNotification`: ack on success, otherwise
consult `shouldRetry` and nack with requeue (retry) or without (DLQ).
The controller's own catch (nack to DLQ on a thrown exception) is
unreachable here because `processEmailNotification` never rejects. -/
def handleEmailNotification (env : Env) (store : RetryStore)
    (payload : EmailNotificationPayload) : HandleResult :=
  let pr := processEmailNotification env payload
  if pr.1.success then
    { action := AckAction.ack, consultedShouldRetry := false,
      result := pr.1, effects := pr.2 }
  else if emailServiceShouldRetry store payload then
    { action := AckAction.nackRequeue, consultedShouldRetry := true,
      result := pr.1, effects := pr.2 }
  else
    { action := AckAction.nackDeadLetter, consultedShouldRetry := true,
      result := pr.1, effects := pr.2 }

/-- Count of FAILED status emissions in a trace. -/
def countFailedEmits (effs : List Effect) : Nat :=
  effs.countP (fun e =>
    match e with
    | Effect.statusEmit _ NotificationStatus.FAILED _ => true
    | _ => false)

/-- Count of `recordRetry` calls in a trace. -/
def countRetryRecords (effs : List Effect) : Nat :=
  effs.countP (fun e =>
    match e with
    | Effect.retryRecord _ => true
    | _ => false)

/-! ## Concrete fixtures -/

def sampleSendSuccess : EmailSendResult :=
  { success := true, message_id := some "m1", error := none }

def samplePayload : EmailNotificationPayload :=
  { user_id := "u1", template_code := "welcome", «variables» := [],
    request_id := "r1", priority := 1 }

def sampleUser : UserData :=
  { id := "u1", name := "John Doe", email := "john@example.com",
    preferences := { email := true, push := false } }

def sampleTemplate : EmailTemplate :=
  { id := "1", code := "welcome", subject := "Welcome!",
    html_body := "<h1>Hello</h1>", text_body := none,
    «variables» := ["name"], language := "en", version := 1 }

def sampleRendered : RenderedEmail :=
  { subject := "Welcome!", html_body := "<h1>Hello John Doe</h1>",
    text_body := none }

def emptyRetryStore : RetryStore := fun _ => none

/-! ## Theorems -/

/-- C4: from a fresh CLOSED circuit, 5 consecutive failures through
`execute` transition it to OPEN with `next_attempt_time` = (time of the
5th failure) + 60000 ms; while OPEN, any call before `next_attempt_time`
is rejected with the breaker-open error, leaves the circuit untouched and
never invokes the wrapped operation (the outcome is independent of `op`);
and any success while CLOSED resets `failure_count` to 0 leaving the
state CLOSED. -/
theorem c4_closed_to_open_and_fast_fail :
    (∀ t1 t2 t3 t4 t5 : Nat, ∀ e1 e2 e3 e4 e5 nm : String,
      (execute (execute (execute (execute (execute initialCircuit
          t1 (Except.error e1 : Except String EmailSendResult) nm).2
          t2 (Except.error e2 : Except String EmailSendResult) nm).2
          t3 (Except.error e3 : Except String EmailSendResult) nm).2
          t4 (Except.error e4 : Except String EmailSendResult) nm).2
          t5 (Except.error e5 : Except String EmailSendResult) nm).2
        = { state := CircuitState.OPEN, failure_count := 5, success_count := 0,
            last_failure_time := some t5, next_attempt_time := t5 + 60000 })
    ∧ (∀ (α : Type) (c : CircuitBreaker) (now : Nat)
          (op : Except String α) (nm : String),
        c.state = CircuitState.OPEN → now < c.next_attempt_time →
        execute c now op nm =
          (ExecOutcome.rejected ("Circuit breaker is OPEN for " ++ nm), c))
    ∧ (∀ (α : Type) (c : CircuitBreaker) (now : Nat) (a : α) (nm : String),
        c.state = CircuitState.CLOSED →
        execute c now (Except.ok a) nm =
          (ExecOutcome.completed (Except.ok a), { c with failure_count := 0 })) := by
  refine ⟨fun t1 t2 t3 t4 t5 e1 e2 e3 e4 e5 nm => rfl, ?_, ?_⟩
  · intro α c now op nm hst hlt
    simp [execute, hst, hlt]
  · intro α c now a nm hst
    obtain ⟨st, fc, sc, lf, na⟩ := c
    simp only at hst
    subst hst
    simp [execute, runOperation, onSuccess]

/-- Witness for C4 at concrete inputs. -/
theorem c4_witness :
    execute ({ state := CircuitState.OPEN, failure_count := 5, success_count := 0,
               last_failure_time := some 3, next_attempt_time := 60003 } : CircuitBreaker)
      7 (Except.ok sampleSendSuccess) "email_send"
      = (ExecOutcome.rejected "Circuit breaker is OPEN for email_send",
         ({ state := CircuitState.OPEN, failure_count := 5, success_count := 0,
            last_failure_time := some 3, next_attempt_time := 60003 } : CircuitBreaker))
    ∧ execute initialCircuit 7 (Except.ok sampleSendSuccess) "email_send"
      = (ExecOutcome.completed (Except.ok sampleSendSuccess),
         { initialCircuit with failure_count := 0 }) :=
  ⟨c4_closed_to_open_and_fast_fail.2.1 EmailSendResult _ 7 _ "email_send" rfl (by decide),
   c4_closed_to_open_and_fast_fail.2.2 EmailSendResult initialCircuit 7
     sampleSendSuccess "email_send" rfl⟩

/-- C5: an OPEN circuit whose timeout elapsed transitions to HALF_OPEN
with `success_count` reset to 0 and runs the wrapped operation (every
call through `runOperation` completes with the operation's own result);
in HALF_OPEN, 2 consecutive successes close the circuit with both
counters reset; one failure in HALF_OPEN reopens it with a fresh
`next_attempt_time` = now + 60000 ms. -/
theorem c5_half_open_transitions :
    (∀ (α : Type) (c : CircuitBreaker) (now : Nat)
        (op : Except String α) (nm : String),
      c.state = CircuitState.OPEN → c.next_attempt_time ≤ now →
      execute c now op nm =
        runOperation { c with state := CircuitState.HALF_OPEN, success_count := 0 }
          now op)
    ∧ (∀ (α : Type) (c : CircuitBreaker) (now : Nat) (op : Except String α),
        (runOperation c now op).1 = ExecOutcome.completed op)
    ∧ (∀ (α : Type) (c : CircuitBreaker) (t1 t2 : Nat) (a b : α) (nm : String),
        c.state = CircuitState.HALF_OPEN → c.success_count = 0 →
        (execute (execute c t1 (Except.ok a) nm).2 t2 (Except.ok b) nm).2
          = { c with state := CircuitState.CLOSED, failure_count := 0,
                     success_count := 0 })
    ∧ (∀ (α : Type) (c : CircuitBreaker) (now : Nat) (e : String) (nm : String),
        c.state = CircuitState.HALF_OPEN →
        (execute c now (Except.error e : Except String α) nm).2
          = { c with state := CircuitState.OPEN,
                     failure_count := c.failure_count + 1,
                     success_count := 0,
                     last_failure_time := some now,
                     next_attempt_time := now + 60000 }) := by
  refine ⟨?_, ?_, ?_, ?_⟩
  · intro α c now op nm hst hle
    simp [execute, hst, Nat.not_lt.mpr hle]
  · intro α c now op
    cases op <;> rfl
  · intro α c t1 t2 a b nm hst hsc
    obtain ⟨st, fc, sc, lf, na⟩ := c
    simp only at hst hsc
    subst hst
    subst hsc
    simp [execute, runOperation, onSuccess, SUCCESS_THRESHOLD]
  · intro α c now e nm hst
    obtain ⟨st, fc, sc, lf, na⟩ := c
    simp only at hst
    subst hst
    simp [execute, runOperation, onFailure, TIMEOUT]

/-- Witness for C5 at concrete inputs. -/
theorem c5_witness :
    execute ({ state := CircuitState.OPEN, failure_count := 5, success_count := 1,
               last_failure_time := some 3, next_attempt_time := 60003 } : CircuitBreaker)
      60003 (Except.ok sampleSendSuccess) "email_send"
      = runOperation ({ state := CircuitState.HALF_OPEN, failure_count := 5,
                        success_count := 0, last_failure_time := some 3,
                        next_attempt_time := 60003 } : CircuitBreaker)
          60003 (Except.ok sampleSendSuccess)
    ∧ (execute (execute ({ state := CircuitState.HALF_OPEN, failure_count := 2,
                           success_count := 0, last_failure_time := some 3,
                           next_attempt_time := 60003 } : CircuitBreaker)
        60004 (Except.ok sampleSendSuccess) "email_send").2
        60005 (Except.ok sampleSendSuccess) "email_send").2
      = ({ state := CircuitState.CLOSED, failure_count := 0, success_count := 0,
           last_failure_time := some 3, next_attempt_time := 60003 } : CircuitBreaker)
    ∧ (execute ({ state := CircuitState.HALF_OPEN, failure_count := 2,
                  success_count := 1, last_failure_time := some 3,
                  next_attempt_time := 60003 } : CircuitBreaker)
        60004 (Except.error "smtp down" : Except String EmailSendResult)
        "email_send").2
      = ({ state := CircuitState.OPEN, failure_count := 3, success_count := 0,
           last_failure_time := some 60004, next_attempt_time := 120004 } : CircuitBreaker) :=
  ⟨c5_half_open_transitions.1 EmailSendResult _ 60003 _ "email_send" rfl (by decide),
   c5_half_open_transitions.2.2.1 EmailSendResult _ 60004 60005
     sampleSendSuccess sampleSendSuccess "email_send" rfl rfl,
   c5_half_open_transitions.2.2.2 EmailSendResult _ 60004 "smtp down"
     "email_send" rfl⟩

/-- C6: the operation `EmailSender.sendEmail` wraps always resolves — a
transport error is converted inside the closure into a returned
`{success:false, error}` — so `execute` records the call as a success:
from a CLOSED circuit the post-call circuit is the same circuit with
`failure_count` reset to 0 (still CLOSED), for every transport outcome;
a transport error surfaces as a completed `{success:false}` result. -/
theorem c6_transport_errors_count_as_success :
    ∀ (c : CircuitBreaker) (now : Nat) (transport : Except TransportError String),
      c.state = CircuitState.CLOSED →
      (sendEmailThroughBreaker c now transport).2 = { c with failure_count := 0 }
      ∧ (sendEmailThroughBreaker c now transport).2.state = CircuitState.CLOSED
      ∧ (∀ e : TransportError, transport = Except.error e →
          (sendEmailThroughBreaker c now transport).1 =
            ExecOutcome.completed (Except.ok
              { success := false, message_id := none,
                error := some (e.message ++ " (Retryable: "
                  ++ (if isRetryableError e then "true" else "false") ++ ")") })) := by
  intro c now transport hst
  obtain ⟨st, fc, sc, lf, na⟩ := c
  simp only at hst
  subst hst
  refine ⟨?_, ?_, ?_⟩
  · simp [sendEmailThroughBreaker, execute, sendEmailOp, runOperation, onSuccess]
  · simp [sendEmailThroughBreaker, execute, sendEmailOp, runOperation, onSuccess]
  · intro e he
    subst he
    simp [sendEmailThroughBreaker, execute, sendEmailOp, runOperation]

/-- Witness for C6 at a concrete transport failure. -/
theorem c6_witness :
    (sendEmailThroughBreaker initialCircuit 5
        (Except.error ({ code := some "ETIMEDOUT", message := "timeout" } : TransportError))).2
      = { initialCircuit with failure_count := 0 }
    ∧ (sendEmailThroughBreaker initialCircuit 5
        (Except.error ({ code := some "ETIMEDOUT", message := "timeout" } : TransportError))).2.state
      = CircuitState.CLOSED :=
  ⟨(c6_transport_errors_count_as_success initialCircuit 5
      (Except.error ({ code := some "ETIMEDOUT", message := "timeout" } : TransportError)) rfl).1,
   (c6_transport_errors_count_as_success initialCircuit 5
      (Except.error ({ code := some "ETIMEDOUT", message := "timeout" } : TransportError)) rfl).2.1⟩

/-- C8: for `attempt_count` n ≥ 1 the pre-jitter base delay equals
`min(1000 * 2^(n-1), 300000)` ms, is non-decreasing in n and capped at
300000; for every jitter draw q ∈ [0,1) the jittered delay is ≥ the base
delay and ≤ base + 0.2 * base. -/
theorem c8_backoff_bounds (n : Nat) (hn : 1 ≤ n) :
    calculateBackoffBase n = min (1000 * 2 ^ (n - 1)) 300000
    ∧ calculateBackoffBase n ≤ calculateBackoffBase (n + 1)
    ∧ calculateBackoffBase n ≤ 300000
    ∧ ∀ q : ℚ, 0 ≤ q → q < 1 →
        ((calculateBackoffBase n : ℤ) ≤ calculateBackoff n q
         ∧ (calculateBackoff n q : ℚ)
             ≤ (calculateBackoffBase n : ℚ)
               + (1 / 5) * (calculateBackoffBase n : ℚ)) := by
  refine ⟨rfl, ?_, ?_, ?_⟩
  · have h2 : (2 : ℕ) ^ (n - 1) ≤ 2 ^ (n + 1 - 1) :=
      Nat.pow_le_pow_right (by norm_num) (by omega)
    exact min_le_min (Nat.mul_le_mul_left _ h2) (le_refl _)
  · exact min_le_right _ _
  · intro q hq0 hq1
    constructor
    · apply Int.le_floor.mpr
      have hjit : 0 ≤ (calculateBackoffBase n : ℚ) * (1 / 5) * q := by positivity
      push_cast
      linarith
    · have hfl := Int.floor_le ((calculateBackoffBase n : ℚ)
        + (calculateBackoffBase n : ℚ) * (1 / 5) * q)
      have hmul : (calculateBackoffBase n : ℚ) * (1 / 5) * q
          ≤ (calculateBackoffBase n : ℚ) * (1 / 5) * 1 := by
        apply mul_le_mul_of_nonneg_left (le_of_lt hq1)
        positivity
      calc (calculateBackoff n q : ℚ)
          ≤ (calculateBackoffBase n : ℚ)
            + (calculateBackoffBase n : ℚ) * (1 / 5) * q := hfl
        _ ≤ (calculateBackoffBase n : ℚ)
            + (1 / 5) * (calculateBackoffBase n : ℚ) := by linarith

/-- Witness for C8 at attempt_count 1 with jitter draw 0. -/
theorem c8_backoff_bounds_witness :
    calculateBackoffBase 1 ≤ calculateBackoffBase 2
    ∧ (calculateBackoffBase 1 : ℤ) ≤ calculateBackoff 1 0 :=
  ⟨(c8_backoff_bounds 1 (le_refl 1)).2.1,
   ((c8_backoff_bounds 1 (le_refl 1)).2.2.2 0 (le_refl 0) zero_lt_one).1⟩

/-- C9: `shouldRetry` is true exactly when the stored attempt count
(0 when no RetryRecord exists) is < MAX_ATTEMPTS = 3, and
`EmailService.shouldRetry` computes the same predicate. -/
theorem c9_should_retry_iff (store : RetryStore) (request_id : String) :
    (retryServiceShouldRetry store request_id = true
      ↔ getRetryCount store request_id < 3)
    ∧ (store ("retry:" ++ request_id) = none → getRetryCount store request_id = 0)
    ∧ (3 ≤ getRetryCount store request_id →
        retryServiceShouldRetry store request_id = false)
    ∧ ∀ payload : EmailNotificationPayload,
        emailServiceShouldRetry store payload
          = retryServiceShouldRetry store payload.request_id := by
  refine ⟨?_, ?_, ?_, ?_⟩
  · simp [retryServiceShouldRetry, MAX_ATTEMPTS]
  · intro h
    simp [getRetryCount, h]
  · intro h
    simp [retryServiceShouldRetry, MAX_ATTEMPTS]
    omega
  · intro payload
    simp [emailServiceShouldRetry, retryServiceShouldRetry,
      MAX_ATTEMPTS, MAX_RETRY_ATTEMPTS]

/-- Witness for C9 on the empty store: count 0, retry allowed. -/
theorem c9_should_retry_iff_witness :
    retryServiceShouldRetry emptyRetryStore "r1" = true
    ∧ getRetryCount emptyRetryStore "r1" = 0 :=
  ⟨(c9_should_retry_iff emptyRetryStore "r1").1.mpr (by decide),
   (c9_should_retry_iff emptyRetryStore "r1").2.1 rfl⟩

/-- The serialized ProcessedRecord starts with an object brace: its
length is at least 11. -/
theorem serializeResult_length (r : EmailSendResult) :
    11 ≤ (serializeResult r).length := by
  unfold serializeResult
  rw [String.length_append, String.length_append, String.length_append,
    String.length_append]
  have h : ("\x7b\x22success\x22:" : String).length = 11 := rfl
  omega

/-- The serialized ProcessedRecord is never the empty string. -/
theorem serializeResult_ne_empty (r : EmailSendResult) :
    serializeResult r ≠ "" := by
  intro h
  have hlen := serializeResult_length r
  rw [h] at hlen
  exact absurd hlen (by decide)

/-- Every `processed:*` write performed by `processEmailNotification`
stores the serialization of some send result. -/
theorem processedSet_value (env : Env) (p : EmailNotificationPayload)
    (k v : String)
    (h : Effect.processedSet k v ∈ (processEmailNotification env p).2) :
    ∃ res : EmailSendResult, v = serializeResult res
      ∧ k = "processed:" ++ p.request_id := by
  unfold processEmailNotification at h
  rcases hpb : processBody env p with pe | pr
  all_goals rw [hpb] at h
  all_goals unfold processBody at hpb
  all_goals repeat' split at hpb
  all_goals rw [← hpb] at h
  all_goals simp_all [updateStatusEffects]

/-- Environment of a fully successful first call: new request, user found
with email enabled, template found, render ok, send ok, record write ok. -/
def envFirstSuccess : Env :=
  { processedVal := Except.ok none
    userResult := Except.ok (some sampleUser)
    templateResult := Except.ok (some sampleTemplate)
    renderResult := Except.ok sampleRendered
    sendResult := Except.ok sampleSendSuccess
    markSetResult := Except.ok () }

/-- Environment of the second call: the ProcessedRecord written by the
first call is still in the store. -/
def envSecondCall : Env :=
  { envFirstSuccess with
    processedVal := Except.ok (some (serializeResult sampleSendSuccess)) }

/-- C1: if the first call wrote the ProcessedRecord (a `processed:*` set
effect with value v) and the second call's store read returns v (the
record has not expired), then the second call returns
`{success:true, message_id:"duplicate"}` with an empty effect trace —
no user lookup, no template lookup, no send and no status emission. -/
theorem c1_duplicate_short_circuit (env1 env2 : Env)
    (p : EmailNotificationPayload) (v : String)
    (hwrite : Effect.processedSet ("processed:" ++ p.request_id) v
      ∈ (processEmailNotification env1 p).2)
    (hstore : env2.processedVal = Except.ok (some v)) :
    processEmailNotification env2 p
      = ({ success := true, message_id := some "duplicate", error := none },
         []) := by
  obtain ⟨res, hv, -⟩ := processedSet_value env1 p _ v hwrite
  subst hv
  have hne := serializeResult_ne_empty res
  have hchk : checkIdempotency env2 = true := by
    simp [checkIdempotency, redisServiceGet, hstore, jsTruthyStr, hne]
  simp [processEmailNotification, processBody, hchk]

/-- Witness for C1: a concrete successful first call followed by a
duplicate redelivery. -/
theorem c1_duplicate_short_circuit_witness :
    processEmailNotification envSecondCall samplePayload
      = ({ success := true, message_id := some "duplicate", error := none },
         []) :=
  c1_duplicate_short_circuit envFirstSuccess envSecondCall samplePayload
    (serializeResult sampleSendSuccess) (by decide) rfl

/-- C7: whenever the try-body of `processEmailNotification` throws
(lookup failure, user/template not found, render throw, breaker-open
rejection, record-write throw), the orchestrator catch normalizes the
outcome to `{success:false, error: message}` with a FAILED status emitted
after the effects already performed; the method itself always returns
this plain result (it never rejects, by the totality of
`processEmailNotification`). -/
theorem c7_errors_normalized (env : Env) (p : EmailNotificationPayload)
    (msg : String) (effs : List Effect)
    (h : processBody env p = Except.error (msg, effs)) :
    processEmailNotification env p
      = ({ success := false, message_id := none, error := some msg },
         effs ++ updateStatusEffects p.request_id
           NotificationStatus.FAILED (some msg))
    ∧ Effect.statusEmit p.request_id NotificationStatus.FAILED (some msg)
        ∈ (processEmailNotification env p).2 := by
  constructor
  · simp [processEmailNotification, h]
  · simp [processEmailNotification, h, updateStatusEffects]

/-- Environment in which the user lookup service rejects. -/
def envUserThrows : Env :=
  { envFirstSuccess with userResult := Except.error "lookup service unreachable" }

/-- Witness for C7: a concrete rejected user lookup is normalized. -/
theorem c7_errors_normalized_witness :
    processEmailNotification envUserThrows samplePayload
      = ({ success := false, message_id := none,
           error := some "lookup service unreachable" },
         updateStatusEffects "r1" NotificationStatus.PENDING none
           ++ [Effect.userLookup "u1"]
           ++ updateStatusEffects "r1" NotificationStatus.FAILED
                (some "lookup service unreachable")) :=
  (c7_errors_normalized envUserThrows samplePayload
    "lookup service unreachable"
    (updateStatusEffects "r1" NotificationStatus.PENDING none
      ++ [Effect.userLookup "u1"]) (by rfl)).1

/-- C10: when the `processed:*` read fails, `RedisService.get` returns
null, `checkIdempotency` returns false, and the orchestrator treats the
request as new: the user lookup is performed, and when user, preference,
template and render all succeed the send is performed — the guard fails
open on a store outage. -/
theorem c10_guard_fails_open (env : Env) (p : EmailNotificationPayload)
    (e : String) (h : env.processedVal = Except.error e) :
    redisServiceGet env.processedVal = none
    ∧ checkIdempotency env = false
    ∧ Effect.userLookup p.user_id ∈ (processEmailNotification env p).2
    ∧ (∀ (u : UserData) (t : EmailTemplate) (rend : RenderedEmail),
        env.userResult = Except.ok (some u) → u.preferences.email = true →
        env.templateResult = Except.ok (some t) →
        env.renderResult = Except.ok rend →
        Effect.send u.email ∈ (processEmailNotification env p).2) := by
  have hget : redisServiceGet env.processedVal = none := by
    simp [redisServiceGet, h]
  have hchk : checkIdempotency env = false := by
    simp [checkIdempotency, hget, jsTruthyStr]
  refine ⟨hget, hchk, ?_, ?_⟩
  · unfold processEmailNotification
    rcases hpb : processBody env p with pe | pr
    all_goals unfold processBody at hpb
    all_goals repeat' split at hpb
    all_goals rw [← hpb]
    all_goals simp_all [updateStatusEffects]
  · intro u t rend hu hpref ht hr
    unfold processEmailNotification
    rcases hpb : processBody env p with pe | pr
    all_goals unfold processBody at hpb
    all_goals repeat' split at hpb
    all_goals rw [← hpb]
    all_goals simp_all [updateStatusEffects]

/-- Environment in which the idempotency read fails (store outage). -/
def envGetFails : Env :=
  { envFirstSuccess with processedVal := Except.error "redis down" }

/-- Witness for C10: a concrete store outage still reaches the send. -/
theorem c10_guard_fails_open_witness :
    checkIdempotency envGetFails = false
    ∧ Effect.send "john@example.com"
        ∈ (processEmailNotification envGetFails samplePayload).2 :=
  ⟨(c10_guard_fails_open envGetFails samplePayload "redis down" rfl).2.1,
   (c10_guard_fails_open envGetFails samplePayload "redis down" rfl).2.2.2
     sampleUser sampleTemplate sampleRendered rfl rfl rfl rfl⟩

/-- Environment in which the user lookup resolves null (subject not
found); everything else as in the successful run. -/
def envUserNotFound : Env :=
  { envFirstSuccess with userResult := Except.ok none }

/-- Retry store holding an exhausted record for request `r1`. -/
def exhaustedRetryStore : RetryStore := fun k =>
  if k = "retry:r1" then
    some { request_id := "r1", attempt_count := 3, first_attempt_at := 0,
           last_attempt_at := 0, next_retry_at := 0, errors := [] }
  else none

/-- C2 counterexample: on a concrete user-not-found message the
message-handling path DOES consult `shouldRetry` and DOES requeue
(`nack` with requeue), contradicting the claim that the retry policy is
never consulted for not-found. -/
theorem c2_counterexample :
    (handleEmailNotification envUserNotFound emptyRetryStore samplePayload).consultedShouldRetry
      = true
    ∧ (handleEmailNotification envUserNotFound emptyRetryStore samplePayload).action
      = AckAction.nackRequeue
    ∧ (handleEmailNotification envUserNotFound emptyRetryStore samplePayload).result
      = { success := false, message_id := none,
          error := some "User not found: u1" } := by
  refine ⟨rfl, rfl, rfl⟩

/-- C2 amended: user-not-found produces a FAILED status emission and a
`{success:false, error:"User not found: <id>"}` result, but the
controller then consults `shouldRetry` and requeues exactly when the
stored attempt count is below 3 (in particular it requeues when no
RetryRecord exists). -/
theorem c2_not_found_consults_retry (env : Env) (store : RetryStore)
    (p : EmailNotificationPayload)
    (hguard : checkIdempotency env = false)
    (huser : env.userResult = Except.ok none) :
    (handleEmailNotification env store p).result
      = { success := false, message_id := none,
          error := some ("User not found: " ++ p.user_id) }
    ∧ Effect.statusEmit p.request_id NotificationStatus.FAILED
        (some ("User not found: " ++ p.user_id))
        ∈ (handleEmailNotification env store p).effects
    ∧ (handleEmailNotification env store p).consultedShouldRetry = true
    ∧ ((handleEmailNotification env store p).action = AckAction.nackRequeue
        ↔ getRetryCount store p.request_id < 3) := by
  have hpb : processBody env p
      = Except.error ("User not found: " ++ p.user_id,
          updateStatusEffects p.request_id NotificationStatus.PENDING none
            ++ [Effect.userLookup p.user_id]) := by
    unfold processBody
    simp [hguard, huser]
  have hpr : processEmailNotification env p
      = ({ success := false, message_id := none,
           error := some ("User not found: " ++ p.user_id) },
         updateStatusEffects p.request_id NotificationStatus.PENDING none
           ++ [Effect.userLookup p.user_id]
           ++ updateStatusEffects p.request_id NotificationStatus.FAILED
                (some ("User not found: " ++ p.user_id))) := by
    simp [processEmailNotification, hpb]
  by_cases hcnt : getRetryCount store p.request_id < 3
  · simp [handleEmailNotification, hpr, emailServiceShouldRetry,
      MAX_RETRY_ATTEMPTS, hcnt, updateStatusEffects]
  · simp [handleEmailNotification, hpr, emailServiceShouldRetry,
      MAX_RETRY_ATTEMPTS, hcnt, updateStatusEffects]

/-- Witness for the amended C2: with an exhausted retry record the
not-found message is still a consulted-retry decision (here dead-letter,
since the stored count is not below 3). -/
theorem c2_not_found_consults_retry_witness :
    (handleEmailNotification envUserNotFound exhaustedRetryStore samplePayload).consultedShouldRetry
      = true
    ∧ ¬((handleEmailNotification envUserNotFound exhaustedRetryStore samplePayload).action
        = AckAction.nackRequeue) :=
  ⟨(c2_not_found_consults_retry envUserNotFound exhaustedRetryStore
      samplePayload rfl rfl).2.2.1,
   fun hact =>
     absurd ((c2_not_found_consults_retry envUserNotFound exhaustedRetryStore
       samplePayload rfl rfl).2.2.2.mp hact) (by decide)⟩

/-- Environment in which the transport send resolves
`{success:false}` (breaker CLOSED, genuine send failure). -/
def envSendFails : Env :=
  { envFirstSuccess with
    sendResult := Except.ok
      { success := false, message_id := none,
        error := some "SMTP connection failed" } }

/-- C3: on a failed send the pipeline returns `{success:false}` and emits
exactly one FAILED status, but it performs no `recordRetry` call at all —
in fact no run of `processEmailNotification` ever records a retry — so
the RetryRecord is never created and the stored attempt count stays 0
instead of incrementing by 1 per failed call. -/
theorem c3_retry_record_never_written :
    (handleEmailNotification envSendFails emptyRetryStore samplePayload).result.success
      = false
    ∧ countFailedEmits
        (handleEmailNotification envSendFails emptyRetryStore samplePayload).effects
      = 1
    ∧ countRetryRecords
        (handleEmailNotification envSendFails emptyRetryStore samplePayload).effects
      = 0
    ∧ (handleEmailNotification envSendFails emptyRetryStore samplePayload).action
      = AckAction.nackRequeue
    ∧ getRetryCount emptyRetryStore "r1" = 0
    ∧ ∀ (env : Env) (q : EmailNotificationPayload),
        countRetryRecords (processEmailNotification env q).2 = 0 := by
  refine ⟨rfl, rfl, rfl, rfl, rfl, ?_⟩
  intro env q
  unfold processEmailNotification
  rcases hpb : processBody env q with pe | pr
  all_goals unfold processBody at hpb
  all_goals repeat' split at hpb
  all_goals rw [← hpb]
  all_goals simp_all [updateStatusEffects, countRetryRecords]

/-- `recordRetry` (the implemented but never-invoked retry writer) does
increment the stored attempt count by exactly 1 per call, creating the
record with count 1 on the first failure. -/
theorem recordRetry_attempt_count (store : RetryStore)
    (request_id err : String) (now : Nat) (rand : ℚ) :
    getRetryCount (recordRetry store request_id err now rand) request_id
      = getRetryCount store request_id + 1 := by
  unfold recordRetry getRetryCount
  cases h : store ("retry:" ++ request_id) <;> simp [h]
